import Mathlib

/-!
Verification development for the PermitManagementSystem permit-package
tracking application. The definitions below are a shallow embedding of the
checklist-driven package status workflow: the NestJS `PackagesService`
(create, updateStatus, updateChecklistItem, createChecklistItems,
generatePackageNumber), the `PermitWebSocketGateway` real-time handlers
(join-package, toggle-checklist-item, update-status), and the frontend
`getProgressStats` computation from `ChecklistEditor.tsx`.

The persistent store is modelled as explicit lists of rows; each service
method is a function from a store (plus its inputs and, where the source
calls `new Date()`, an explicit clock value) to a new store together with
the value it returns or the error it throws. Store writes that can fail at
the database are modelled by injected boolean write outcomes: a write whose
outcome is `false` rejects, leaving exactly the rows it would have touched
unchanged, matching per-row atomicity of the underlying store.
-/

set_option maxRecDepth 4000

namespace PMS

/-- Package lifecycle status. The Prisma schema itself is not among the
source files; the constructor set is modelled from the spec (section 4.1)
and matches the status options used by the frontend StatusUpdateModal. -/
inductive PackageStatus
  | DRAFT
  | IN_REVIEW
  | SUBMITTED
  | APPROVED
  | REJECTED
  | CLOSED
deriving DecidableEq, Repr

/-- Permit type enum from the schema drafts and the frontend form. -/
inductive PermitType
  | RESIDENTIAL
  | MOBILE_HOME
  | MODULAR_HOME
deriving DecidableEq, Repr

/-- Timestamps: an abstract discrete clock (the source calls new Date()). -/
abbrev Time := Nat

/-- A StatusLog row, as written by PackagesService.create and
PackagesService.updateStatus. -/
structure StatusLog where
  packageId : String
  userId : String
  status : PackageStatus
  note : Option String
  createdAt : Time
deriving DecidableEq, Repr

/-- The fields of a PermitPackage row that the verified operations read or
write. -/
structure PermitPackage where
  id : String
  packageNumber : String
  status : PackageStatus
  createdById : String
  updatedById : Option String
  countyId : String
  permitType : PermitType
deriving DecidableEq, Repr

/-- A PackageChecklistItem row. `completed` defaults to false and
`completedAt` to null at creation (schema defaults). -/
structure PackageChecklistItem where
  id : String
  packageId : String
  label : String
  category : String
  required : Bool
  sort : Nat
  completed : Bool
  completedAt : Option Time
  notes : Option String
deriving DecidableEq, Repr

/-- A CountyChecklistTemplateItem row: the per-county checklist template
catalog. A null permitType means the template applies to all permit
types. -/
structure TemplateItem where
  countyId : String
  label : String
  category : String
  required : Bool
  sort : Nat
  permitType : Option PermitType
deriving DecidableEq, Repr

/-- The relational store, restricted to the tables the verified operations
touch. -/
structure Store where
  packages : List PermitPackage
  checklistItems : List PackageChecklistItem
  statusLogs : List StatusLog
  templates : List TemplateItem
deriving DecidableEq, Repr

/-- prisma.permitPackage.findUnique by id. -/
def Store.findPackage (s : Store) (id : String) : Option PermitPackage :=
  s.packages.find? (fun p => p.id == id)

/-- prisma.packageChecklistItem.findUnique by id. -/
def Store.findItem (s : Store) (id : String) : Option PackageChecklistItem :=
  s.checklistItems.find? (fun i => i.id == id)

/-- The StatusLog rows belonging to a package, in insertion order (the
source orders reads by createdAt; writes append at the end). -/
def Store.logsFor (s : Store) (pid : String) : List StatusLog :=
  s.statusLogs.filter (fun l => l.packageId == pid)

/-- The PackageChecklistItem rows belonging to a package. -/
def Store.itemsFor (s : Store) (pid : String) : List PackageChecklistItem :=
  s.checklistItems.filter (fun i => i.packageId == pid)

/-- Errors thrown by the service methods. -/
inductive ServiceError
  | notFound (msg : String)
  | storeFailure
deriving DecidableEq, Repr

/-- Which of the two store writes inside updateStatus succeed. The source
issues both writes via Promise.all, so both are always attempted. -/
structure WriteFate where
  updateOk : Bool
  logOk : Bool
deriving DecidableEq, Repr

/-- The prisma.permitPackage.update write performed by updateStatus: set
status and updatedById on the row with the given id. -/
def Store.applyStatusUpdate (s : Store) (id : String) (status : PackageStatus)
    (userId : String) : Store :=
  { s with packages := s.packages.map (fun p =>
      if p.id == id then { p with status := status, updatedById := some userId } else p) }

/-- The prisma.statusLog.create write: append one StatusLog row. -/
def Store.appendLog (s : Store) (log : StatusLog) : Store :=
  { s with statusLogs := s.statusLogs ++ [log] }

/-- PackagesService.updateStatus with injected write outcomes. The source
looks the package up (throwing NotFoundException when absent) and then runs
the package update and the statusLog create concurrently via Promise.all,
with no enclosing transaction: each write that succeeds keeps its effect
even when the other write rejects, and the combined call reports failure
when either write rejects. -/
def updateStatusFI (s : Store) (id : String) (status : PackageStatus)
    (userId : String) (note : Option String) (now : Time) (fate : WriteFate) :
    Store × Except ServiceError (PermitPackage × StatusLog) :=
  match s.findPackage id with
  | none => (s, .error (.notFound "Permit package not found"))
  | some _ =>
    let log : StatusLog :=
      { packageId := id, userId := userId, status := status, note := note, createdAt := now }
    let s1 := if fate.updateOk then s.applyStatusUpdate id status userId else s
    let s2 := if fate.logOk then s1.appendLog log else s1
    if fate.updateOk && fate.logOk then
      match s2.findPackage id with
      | some p => (s2, .ok (p, log))
      | none => (s2, .error .storeFailure)
    else
      (s2, .error .storeFailure)

/-- PackagesService.updateStatus on the path where both store writes
succeed. -/
def updateStatusRun (s : Store) (id : String) (status : PackageStatus)
    (userId : String) (note : Option String) (now : Time) :
    Store × Except ServiceError (PermitPackage × StatusLog) :=
  updateStatusFI s id status userId note now ⟨true, true⟩

/-- A sequence of updateStatus calls against one package, on the
all-writes-succeed path. -/
structure UpdateCall where
  status : PackageStatus
  userId : String
  note : Option String
  now : Time
deriving DecidableEq, Repr

/-- Fold a list of updateStatus calls over the store. -/
def runUpdates (s : Store) (pid : String) : List UpdateCall → Store
  | [] => s
  | c :: cs => runUpdates (updateStatusRun s pid c.status c.userId c.note c.now).1 pid cs

/-! ### Package number generation (PackagesService.generatePackageNumber) -/

/-- Little-endian decimal digits of a natural number, computed with
explicit fuel so that the definition is structurally recursive. -/
def decDigitsAux : Nat → Nat → List Nat
  | _, 0 => []
  | 0, _ + 1 => []
  | fuel + 1, n + 1 => (n + 1) % 10 :: decDigitsAux fuel ((n + 1) / 10)

/-- Little-endian decimal digits of a natural number. -/
def decDigits (n : Nat) : List Nat := decDigitsAux n n

/-- Decimal rendering of a natural number; models the JavaScript
Number.prototype.toString() output for the nonnegative integers used by
generatePackageNumber (template literal interpolation and
(count + 1).toString()). -/
def decStr (n : Nat) : String :=
  if n = 0 then "0" else ⟨((decDigits n).map Nat.digitChar).reverse⟩

/-- The numeric value of a decimal digit character. -/
def charVal (c : Char) : Nat := c.toNat - 48

/-- The numeric value of a string of decimal digit characters (most
significant first); used to read the NNNN part of a package number back as
a number. -/
def parseDec (s : String) : Nat :=
  s.data.foldl (fun a c => 10 * a + charVal c) 0

/-- JavaScript String.prototype.padStart(len, c): left-pad with c up to
length len. -/
def padStart (s : String) (len : Nat) (c : Char) : String :=
  ⟨List.replicate (len - s.data.length) c ++ s.data⟩

/-- JavaScript/prisma startsWith: the first characters of s coincide with
pre. -/
def startsWithB (s pre : String) : Bool :=
  s.data.take pre.data.length == pre.data

/-- The fixed part of a package number for a calendar year: the template
literal pattern used by generatePackageNumber. -/
def pkgTag (year : Nat) : String :=
  "PKG-" ++ decStr year ++ "-"

/-- The prisma count query inside generatePackageNumber: how many stored
packages have a packageNumber starting with the pattern for this year. -/
def Store.matchCount (s : Store) (year : Nat) : Nat :=
  (s.packages.filter (fun p => startsWithB p.packageNumber (pkgTag year))).length

/-- PackagesService.generatePackageNumber. -/
def generatePackageNumber (s : Store) (year : Nat) : String :=
  pkgTag year ++ padStart (decStr (s.matchCount year + 1)) 4 '0'

/-! ### Package creation (PackagesService.create) -/

/-- PackagesService.create: generates the package number, inserts the
PermitPackage row (status defaults to DRAFT per the schema), then inserts
the initial StatusLog row with status DRAFT and note "Package created".
No PackageChecklistItem rows are written by this method. -/
def create (s : Store) (pid countyId : String) (pt : PermitType)
    (userId : String) (now : Time) (year : Nat) : Store × PermitPackage :=
  let number := generatePackageNumber s year
  let pkg : PermitPackage :=
    { id := pid, packageNumber := number, status := .DRAFT, createdById := userId,
      updatedById := none, countyId := countyId, permitType := pt }
  let log : StatusLog :=
    { packageId := pid, userId := userId, status := .DRAFT,
      note := some "Package created", createdAt := now }
  ({ s with packages := s.packages ++ [pkg], statusLogs := s.statusLogs ++ [log] }, pkg)

/-- One create request; the clock value is the request time. -/
structure CreateReq where
  pid : String
  countyId : String
  permitType : PermitType
  userId : String
  now : Time
deriving DecidableEq, Repr

/-- A sequence of non-concurrent create calls within one calendar year,
collecting the assigned package numbers in order. -/
def createRun (s : Store) (year : Nat) : List CreateReq → Store × List String
  | [] => (s, [])
  | r :: rs =>
    let res := create s r.pid r.countyId r.permitType r.userId r.now year
    let rest := createRun res.1 year rs
    (rest.1, res.2.packageNumber :: rest.2)

/-- Modelled from the spec (section 4.2; the Prisma schema and any
creation-time instantiation code are absent from the source tree): the
template rows applicable to a package of permit type pt in county
countyId are those whose jurisdiction matches and whose
applicablePermitType is unset or equals pt. -/
def specApplicableTemplates (s : Store) (countyId : String) (pt : PermitType) :
    List TemplateItem :=
  s.templates.filter (fun t =>
    t.countyId == countyId && (t.permitType == none || t.permitType == some pt))

/-! ### Checklist item operations -/

/-- The row produced by the prisma update inside
PackagesService.updateChecklistItem: set completed, set completedAt to the
clock when completed is true and to null when false, set notes when the
argument is provided (prisma leaves the column untouched when the argument
is undefined). -/
def toggledItem (item : PackageChecklistItem) (completed : Bool)
    (notes : Option String) (now : Time) : PackageChecklistItem :=
  { item with
    completed := completed,
    completedAt := if completed then some now else none,
    notes := match notes with | some n => some n | none => item.notes }

/-- PackagesService.updateChecklistItem: look the item up (NotFound when
absent), then write the toggled row back. -/
def updateChecklistItem (s : Store) (itemId : String) (completed : Bool)
    (notes : Option String) (now : Time) :
    Store × Except ServiceError PackageChecklistItem :=
  match s.findItem itemId with
  | none => (s, .error (.notFound "Checklist item not found"))
  | some item =>
    ({ s with checklistItems := s.checklistItems.map (fun i =>
        if i.id == itemId then toggledItem item completed notes now else i) },
     .ok (toggledItem item completed notes now))

/-- The PackageChecklistItem row created from one supplied template row:
label, category, required and sort are copied; completed and completedAt
take their schema defaults. -/
def cloneTemplate (pid newId : String) (t : TemplateItem) : PackageChecklistItem :=
  { id := newId, packageId := pid, label := t.label, category := t.category,
    required := t.required, sort := t.sort,
    completed := false, completedAt := none, notes := none }

/-- PackagesService.createChecklistItems: look the package up (NotFound
when absent), then create one PackageChecklistItem per supplied template
row. The newId function stands for uuid generation. -/
def createChecklistItems (s : Store) (pid : String)
    (templateItems : List TemplateItem) (newId : Nat → String) :
    Store × Except ServiceError (List PackageChecklistItem) :=
  match s.findPackage pid with
  | none => (s, .error (.notFound "Permit package not found"))
  | some _ =>
    let items := templateItems.enum.map (fun e => cloneTemplate pid (newId e.1) e.2)
    ({ s with checklistItems := s.checklistItems ++ items }, .ok items)

/-! ### Real-time gateway (PermitWebSocketGateway) -/

/-- An event emission: either to a single socket (client.emit) or to every
member of a room, optionally excluding the sender (client.to versus
server.to). Payloads are identified by their event name. -/
inductive WsEmit
  | direct (sock : String) (event : String)
  | room (name : String) (exclude : Option String) (event : String)
deriving DecidableEq, Repr

/-- The socket.io room name for a package. -/
def pkgRoom (pid : String) : String := "package-" ++ pid

/-- Room membership state of the hub: (room name, socket id) pairs. -/
structure HubState where
  rooms : List (String × String)
deriving DecidableEq, Repr

/-- Whether a socket is a member of a room. -/
def HubState.member (hub : HubState) (room sock : String) : Bool :=
  hub.rooms.any (fun m => m.1 == room && m.2 == sock)

/-- socket.io delivery: a direct emission reaches exactly its target; a
room emission reaches the current members of the room except the excluded
sender. -/
def delivers (hub : HubState) (e : WsEmit) (sock : String) : Bool :=
  match e with
  | .direct s _ => s == sock
  | .room r ex _ => hub.member r sock && !(ex == some sock)

/-- The authorization read in handleJoinPackage:
prisma.permitPackage.findFirst where the id matches and the user is the
creator or the designated updater. -/
def authOk (s : Store) (pid userId : String) : Bool :=
  s.packages.any (fun p =>
    p.id == pid && (p.createdById == userId || p.updatedById == some userId))

/-- PermitWebSocketGateway.handleJoinPackage: on authorization success the
socket joins the package room, receives joined-package, and the other room
members receive presence; on failure the socket receives only an error
event and the membership state is unchanged. -/
def handleJoinPackage (db : Store) (hub : HubState) (sock userId pid : String) :
    HubState × List WsEmit :=
  if authOk db pid userId then
    ({ rooms := hub.rooms ++ [(pkgRoom pid, sock)] },
     [.direct sock "joined-package", .room (pkgRoom pid) (some sock) "presence"])
  else
    (hub, [.direct sock "error"])

/-- PermitWebSocketGateway.handleToggleChecklistItem with an injected write
outcome: the prisma update (which rejects when the row is absent or the
store write fails) is awaited first; only after it succeeds is
checklist-updated broadcast to the package room; on any failure the caught
error produces a single error event to the originating socket. The
gateway write sets completed and completedAt but not notes. -/
def handleToggleChecklistItem (db : Store) (sock pid itemId : String)
    (completed : Bool) (now : Time) (writeOk : Bool) : Store × List WsEmit :=
  match db.findItem itemId, writeOk with
  | some _, true =>
    ({ db with checklistItems := db.checklistItems.map (fun i =>
        if i.id == itemId then
          { i with completed := completed,
                   completedAt := if completed then some now else none }
        else i) },
     [.room (pkgRoom pid) none "checklist-updated"])
  | _, _ => (db, [.direct sock "error"])

/-- PermitWebSocketGateway.handleUpdateStatus with injected write outcomes:
the package update is awaited, then the statusLog create, then
status-updated is broadcast to the room; a rejection at either write skips
everything after it and the catch block emits a single error event to the
originating socket. The two writes are sequential and not wrapped in a
transaction: a statusLog failure leaves the already-performed package
update in place. -/
def handleUpdateStatus (db : Store) (sock userId pid : String)
    (status : PackageStatus) (note : Option String) (now : Time)
    (fate : WriteFate) : Store × List WsEmit :=
  if (db.findPackage pid).isSome && fate.updateOk then
    let db1 := db.applyStatusUpdate pid status userId
    if fate.logOk then
      (db1.appendLog
        { packageId := pid, userId := userId, status := status,
          note := note, createdAt := now },
       [.room (pkgRoom pid) none "status-updated"])
    else
      (db1, [.direct sock "error"])
  else
    (db, [.direct sock "error"])

/-! ### Checklist progress (ChecklistEditor.getProgressStats) -/

/-- The record returned by getProgressStats. -/
structure ProgressStats where
  total : Nat
  completed : Nat
  required : Nat
  requiredCompleted : Nat
  percentage : Nat
  requiredPercentage : Nat
deriving DecidableEq, Repr

/-- Math.round((num / den) * 100) over exact rationals; Math.round rounds
half toward positive infinity, as Mathlib round does. -/
def jsRoundPct (num den : Nat) : Nat :=
  (round (((num : ℚ) / (den : ℚ)) * 100)).toNat

/-- getProgressStats from ChecklistEditor.tsx. -/
def getProgressStats (items : List PackageChecklistItem) : ProgressStats :=
  let total := items.length
  let completed := (items.filter (fun i => i.completed)).length
  let required := (items.filter (fun i => i.required)).length
  let requiredCompleted := (items.filter (fun i => i.required && i.completed)).length
  { total := total, completed := completed, required := required,
    requiredCompleted := requiredCompleted,
    percentage := if total > 0 then jsRoundPct completed total else 0,
    requiredPercentage := if required > 0 then jsRoundPct requiredCompleted required else 0 }

/-- Modelled from the spec (section 4.3): percentage = round(100*completed/total)
when total is positive, else 0. -/
def specRoundPct (c t : Nat) : Nat :=
  if t > 0 then (round ((100 * (c : ℚ)) / (t : ℚ))).toNat else 0

/-! ### Lookup lemmas for row updates -/

instance {ε α : Type} [DecidableEq ε] [DecidableEq α] :
    DecidableEq (Except ε α) := fun a b =>
  match a, b with
  | .error x, .error y => decidable_of_iff (x = y) (by simp)
  | .error _, .ok _ => .isFalse (fun hh => Except.noConfusion hh)
  | .ok _, .error _ => .isFalse (fun hh => Except.noConfusion hh)
  | .ok x, .ok y => decidable_of_iff (x = y) (by simp)

theorem find?_map_update (l : List PermitPackage) (id : String)
    (f : PermitPackage → PermitPackage) (hf : ∀ p, (f p).id = p.id)
    (pkg : PermitPackage) (h : l.find? (fun p => p.id == id) = some pkg) :
    (l.map (fun p => if p.id == id then f p else p)).find?
      (fun p => p.id == id) = some (f pkg) := by
  induction l with
  | nil => simp at h
  | cons a l ih =>
    cases ha : (a.id == id) with
    | true =>
      simp only [List.find?, ha] at h
      cases h
      simp [List.find?, List.map, ha, hf]
    | false =>
      simp only [List.find?, ha] at h
      simpa [List.find?, List.map, ha] using ih h

theorem find?_map_replace (l : List PackageChecklistItem) (id : String)
    (it2 : PackageChecklistItem) (h2 : (it2.id == id) = true)
    (x0 : PackageChecklistItem) (h : l.find? (fun i => i.id == id) = some x0) :
    (l.map (fun i => if i.id == id then it2 else i)).find?
      (fun i => i.id == id) = some it2 := by
  induction l with
  | nil => simp at h
  | cons a l ih =>
    cases ha : (a.id == id) with
    | true => simp [List.find?, List.map, ha, h2]
    | false =>
      simp only [List.find?, ha] at h
      simpa [List.find?, List.map, ha] using ih h

theorem findPackage_applyStatusUpdate (s : Store) (id : String)
    (st : PackageStatus) (uid : String) (pkg : PermitPackage)
    (h : s.findPackage id = some pkg) :
    (s.applyStatusUpdate id st uid).findPackage id =
      some { pkg with status := st, updatedById := some uid } := by
  unfold Store.findPackage Store.applyStatusUpdate
  exact find?_map_update s.packages id
    (fun p => { p with status := st, updatedById := some uid })
    (fun _ => rfl) pkg h

theorem logsFor_appendLog (s : Store) (log : StatusLog) (pid : String)
    (h : (log.packageId == pid) = true) :
    (s.appendLog log).logsFor pid = s.logsFor pid ++ [log] := by
  unfold Store.appendLog Store.logsFor
  simp [List.filter_append, h]

theorem findPackage_appendLog (s : Store) (log : StatusLog) (id : String) :
    (s.appendLog log).findPackage id = s.findPackage id := rfl

theorem logsFor_applyStatusUpdate (s : Store) (id : String)
    (st : PackageStatus) (uid : String) (pid : String) :
    (s.applyStatusUpdate id st uid).logsFor pid = s.logsFor pid := rfl

/-- Evaluation of updateStatus on its successful path: the package row is
updated, the audit row is appended, and both are returned. -/
theorem updateStatusRun_found (s : Store) (pid : String) (st : PackageStatus)
    (uid : String) (note : Option String) (now : Time) (pkg : PermitPackage)
    (h : s.findPackage pid = some pkg) :
    updateStatusRun s pid st uid note now =
      ((s.applyStatusUpdate pid st uid).appendLog
        ⟨pid, uid, st, note, now⟩,
       .ok ({ pkg with status := st, updatedById := some uid },
            ⟨pid, uid, st, note, now⟩)) := by
  have h2 : ((s.applyStatusUpdate pid st uid).appendLog
      (⟨pid, uid, st, note, now⟩ : StatusLog)).findPackage pid =
      some { pkg with status := st, updatedById := some uid } := by
    rw [findPackage_appendLog]
    exact findPackage_applyStatusUpdate s pid st uid pkg h
  unfold updateStatusRun updateStatusFI
  rw [h]
  simp only [Bool.and_self, if_true]
  rw [h2]

/-! ### C4: updateStatus NotFound handling and transition leniency -/

/-- C4: for every call to updateStatus, when no package with the given id
exists the service throws NotFound and the store is unchanged, whatever
the write outcomes; when the package exists, every member of the status
enum is accepted as the next status — the successful-path result is ok
with exactly that status, with no allowed-transitions check anywhere. -/
theorem updateStatus_notFound_and_lenient :
    ∀ (s : Store) (pid uid : String) (note : Option String) (now : Time)
      (fate : WriteFate),
      (s.findPackage pid = none →
        ∀ st : PackageStatus,
          updateStatusFI s pid st uid note now fate =
            (s, .error (.notFound "Permit package not found"))) ∧
      (∀ pkg, s.findPackage pid = some pkg →
        ∀ st : PackageStatus,
          ∃ p lg, (updateStatusRun s pid st uid note now).2 = .ok (p, lg) ∧
            p.status = st ∧ lg.status = st ∧ lg.packageId = pid) := by
  intro s pid uid note now fate
  constructor
  · intro h st
    unfold updateStatusFI
    rw [h]
  · intro pkg h st
    rw [updateStatusRun_found s pid st uid note now pkg h]
    exact ⟨_, _, rfl, rfl, rfl, rfl⟩

/-- Closed witness for the C4 theorem at concrete inputs. -/
theorem updateStatus_notFound_and_lenient_witness :
    updateStatusFI ⟨[], [], [], []⟩ "p1" .APPROVED "u1" none 0 ⟨true, true⟩ =
      (⟨[], [], [], []⟩, .error (.notFound "Permit package not found")) ∧
    ∃ p lg,
      (updateStatusRun
        ⟨[⟨"p1", "PKG-2026-0001", .DRAFT, "u1", none, "c1", .RESIDENTIAL⟩], [], [], []⟩
        "p1" .CLOSED "u2" (some "done") 9).2 = .ok (p, lg) ∧
      p.status = .CLOSED ∧ lg.status = .CLOSED ∧ lg.packageId = "p1" :=
  ⟨(updateStatus_notFound_and_lenient ⟨[], [], [], []⟩ "p1" "u1" none 0
      ⟨true, true⟩).1 (by decide) .APPROVED,
   (updateStatus_notFound_and_lenient
      ⟨[⟨"p1", "PKG-2026-0001", .DRAFT, "u1", none, "c1", .RESIDENTIAL⟩], [], [], []⟩
      "p1" "u2" (some "done") 9 ⟨true, true⟩).2
      ⟨"p1", "PKG-2026-0001", .DRAFT, "u1", none, "c1", .RESIDENTIAL⟩
      (by decide) .CLOSED⟩

/-! ### C1: updateStatus is not atomic across its two writes -/

/-- A one-package store used as the failing input for C1. -/
def c1Store : Store :=
  { packages := [⟨"p1", "PKG-2026-0001", .DRAFT, "u1", none, "c1", .RESIDENTIAL⟩],
    checklistItems := [],
    statusLogs := [⟨"p1", "u1", .DRAFT, some "Package created", 0⟩],
    templates := [] }

/-- C1 (code bug): updateStatus issues the package update and the
statusLog insert through Promise.all with no enclosing transaction, so
when the statusLog insert rejects and the package update commits the call
reports failure yet leaves the status changed with no new audit entry —
the rollback the spec requires does not exist in the code. -/
theorem updateStatus_partial_write_on_log_failure :
    (updateStatusFI c1Store "p1" .SUBMITTED "u2" (some "go") 5
        ⟨true, false⟩).2 = .error .storeFailure ∧
    ((updateStatusFI c1Store "p1" .SUBMITTED "u2" (some "go") 5
        ⟨true, false⟩).1.findPackage "p1").map PermitPackage.status =
      some .SUBMITTED ∧
    (updateStatusFI c1Store "p1" .SUBMITTED "u2" (some "go") 5
        ⟨true, false⟩).1.logsFor "p1" = c1Store.logsFor "p1" := by
  decide

/-! ### C3: create performs no checklist template instantiation -/

/-- A county checklist template row applicable to every permit type. -/
def c3Template : TemplateItem :=
  { countyId := "c1", label := "Completed permit application form",
    category := "Application", required := true, sort := 1, permitType := none }

/-- C3 (code bug): creating a package writes no PackageChecklistItem rows
at all, even when the package county has an applicable template row: the
cloning required by the spec and the repository design document happens
only in the separate createChecklistItems endpoint. -/
theorem create_writes_no_checklist_items :
    specApplicableTemplates ⟨[], [], [], [c3Template]⟩ "c1" .MOBILE_HOME =
      [c3Template] ∧
    (create ⟨[], [], [], [c3Template]⟩ "p1" "c1" .MOBILE_HOME "u1" 0 2026).1.itemsFor
      "p1" = [] ∧
    (create ⟨[], [], [], [c3Template]⟩ "p1" "c1" .MOBILE_HOME "u1" 0 2026).1.checklistItems
      = [] := by
  decide

/-! ### C2: audit trail completeness -/

/-- Invariant preservation: a sequence of successful updateStatus calls
adds exactly one audit row per call, keeps the latest audit row in sync
with the package status, and never touches the earlier rows. -/
theorem runUpdates_audit (calls : List UpdateCall) :
    ∀ (s : Store) (pid : String) (pkg : PermitPackage),
      s.findPackage pid = some pkg →
      (s.logsFor pid).getLast?.map StatusLog.status = some pkg.status →
      ∃ pkg2, (runUpdates s pid calls).findPackage pid = some pkg2 ∧
        ((runUpdates s pid calls).logsFor pid).length =
          (s.logsFor pid).length + calls.length ∧
        ((runUpdates s pid calls).logsFor pid).getLast?.map StatusLog.status =
          some pkg2.status ∧
        ((runUpdates s pid calls).logsFor pid).head? = (s.logsFor pid).head? := by
  induction calls with
  | nil =>
    intro s pid pkg h hl
    exact ⟨pkg, h, by simp [runUpdates], by simpa [runUpdates] using hl,
      by simp [runUpdates]⟩
  | cons c cs ih =>
    intro s pid pkg h hl
    have hstep := updateStatusRun_found s pid c.status c.userId c.note c.now pkg h
    have hne : s.logsFor pid ≠ [] := by
      intro hnil
      rw [hnil] at hl
      simp at hl
    have hrun : runUpdates s pid (c :: cs) =
        runUpdates ((s.applyStatusUpdate pid c.status c.userId).appendLog
          ⟨pid, c.userId, c.status, c.note, c.now⟩) pid cs := by
      show runUpdates (updateStatusRun s pid c.status c.userId c.note c.now).1 pid cs = _
      rw [hstep]
    have hfind1 : ((s.applyStatusUpdate pid c.status c.userId).appendLog
        ⟨pid, c.userId, c.status, c.note, c.now⟩).findPackage pid =
        some { pkg with status := c.status, updatedById := some c.userId } := by
      rw [findPackage_appendLog]
      exact findPackage_applyStatusUpdate s pid c.status c.userId pkg h
    have hlogs1 : ((s.applyStatusUpdate pid c.status c.userId).appendLog
        ⟨pid, c.userId, c.status, c.note, c.now⟩).logsFor pid =
        s.logsFor pid ++ [⟨pid, c.userId, c.status, c.note, c.now⟩] := by
      rw [logsFor_appendLog _ _ _ (by simp), logsFor_applyStatusUpdate]
    have hlast1 : (((s.applyStatusUpdate pid c.status c.userId).appendLog
        ⟨pid, c.userId, c.status, c.note, c.now⟩).logsFor pid).getLast?.map
        StatusLog.status =
        some ({ pkg with status := c.status, updatedById := some c.userId} :
          PermitPackage).status := by
      rw [hlogs1]
      simp [List.getLast?_append]
    obtain ⟨pkg2, h2find, h2len, h2last, h2head⟩ :=
      ih _ pid { pkg with status := c.status, updatedById := some c.userId }
        hfind1 hlast1
    refine ⟨pkg2, ?_, ?_, ?_, ?_⟩
    · rw [hrun]; exact h2find
    · rw [hrun, h2len, hlogs1]
      simp only [List.length_append, List.length_cons, List.length_nil]
      omega
    · rw [hrun]; exact h2last
    · rw [hrun, h2head, hlogs1]
      exact List.head?_append_of_ne_nil _ hne

/-- C2: after creation — which writes the initial DRAFT audit row with
note "Package created" — every sequence of successful updateStatus calls
leaves exactly one audit row per transition plus the creation row, the
most recent row carrying the current package status and the oldest row
being the creation entry. -/
theorem audit_trail_completeness (s0 : Store) (pid countyId : String)
    (pt : PermitType) (uid : String) (t0 : Time) (year : Nat)
    (calls : List UpdateCall)
    (hfresh : s0.findPackage pid = none) (hlogs : s0.logsFor pid = []) :
    ∃ pkg2,
      (runUpdates (create s0 pid countyId pt uid t0 year).1 pid calls).findPackage
        pid = some pkg2 ∧
      ((runUpdates (create s0 pid countyId pt uid t0 year).1 pid calls).logsFor
        pid).length = calls.length + 1 ∧
      ((runUpdates (create s0 pid countyId pt uid t0 year).1 pid calls).logsFor
        pid).getLast?.map StatusLog.status = some pkg2.status ∧
      ((runUpdates (create s0 pid countyId pt uid t0 year).1 pid calls).logsFor
        pid).head?.map (fun l => (l.status, l.note)) =
        some (.DRAFT, some "Package created") := by
  have hfind1 : (create s0 pid countyId pt uid t0 year).1.findPackage pid =
      some ⟨pid, generatePackageNumber s0 year, .DRAFT, uid, none, countyId, pt⟩ := by
    unfold create Store.findPackage at *
    rw [List.find?_append, hfresh]
    simp
  have hlogs1 : (create s0 pid countyId pt uid t0 year).1.logsFor pid =
      [⟨pid, uid, .DRAFT, some "Package created", t0⟩] := by
    unfold create Store.logsFor at *
    rw [List.filter_append, hlogs]
    simp
  have hlast1 : ((create s0 pid countyId pt uid t0 year).1.logsFor
      pid).getLast?.map StatusLog.status = some .DRAFT := by
    rw [hlogs1]; rfl
  obtain ⟨pkg2, h2find, h2len, h2last, h2head⟩ :=
    runUpdates_audit calls _ pid _ hfind1 hlast1
  refine ⟨pkg2, h2find, ?_, h2last, ?_⟩
  · rw [h2len, hlogs1]; simp [Nat.add_comm]
  · rw [h2head, hlogs1]; rfl

/-- Closed witness for C2: one creation followed by two transitions on an
initially empty store. -/
theorem audit_trail_completeness_witness :
    ∃ pkg2,
      (runUpdates (create ⟨[], [], [], []⟩ "p1" "c1" .RESIDENTIAL "u1" 0 2026).1
        "p1" [⟨.IN_REVIEW, "u2", some "sent", 3⟩, ⟨.APPROVED, "u1", none, 7⟩]).findPackage
        "p1" = some pkg2 ∧
      ((runUpdates (create ⟨[], [], [], []⟩ "p1" "c1" .RESIDENTIAL "u1" 0 2026).1
        "p1" [⟨.IN_REVIEW, "u2", some "sent", 3⟩, ⟨.APPROVED, "u1", none, 7⟩]).logsFor
        "p1").length = 3 ∧
      ((runUpdates (create ⟨[], [], [], []⟩ "p1" "c1" .RESIDENTIAL "u1" 0 2026).1
        "p1" [⟨.IN_REVIEW, "u2", some "sent", 3⟩, ⟨.APPROVED, "u1", none, 7⟩]).logsFor
        "p1").getLast?.map StatusLog.status = some pkg2.status ∧
      ((runUpdates (create ⟨[], [], [], []⟩ "p1" "c1" .RESIDENTIAL "u1" 0 2026).1
        "p1" [⟨.IN_REVIEW, "u2", some "sent", 3⟩, ⟨.APPROVED, "u1", none, 7⟩]).logsFor
        "p1").head?.map (fun l => (l.status, l.note)) =
        some (.DRAFT, some "Package created") :=
  audit_trail_completeness ⟨[], [], [], []⟩ "p1" "c1" .RESIDENTIAL "u1" 0 2026
    [⟨.IN_REVIEW, "u2", some "sent", 3⟩, ⟨.APPROVED, "u1", none, 7⟩]
    (by decide) (by decide)

/-! ### C5: updateChecklistItem semantics -/

/-- Evaluation of updateChecklistItem when the item exists. -/
theorem updateChecklistItem_found (s : Store) (itemId : String)
    (completed : Bool) (notes : Option String) (now : Time)
    (item : PackageChecklistItem) (h : s.findItem itemId = some item) :
    updateChecklistItem s itemId completed notes now =
      ({ s with checklistItems := s.checklistItems.map (fun i =>
          if i.id == itemId then toggledItem item completed notes now else i) },
       .ok (toggledItem item completed notes now)) := by
  unfold updateChecklistItem
  rw [h]

/-- Reading the item back after updateChecklistItem returns the updated
row. -/
theorem findItem_after_update (s : Store) (itemId : String) (completed : Bool)
    (notes : Option String) (now : Time) (item : PackageChecklistItem)
    (h : s.findItem itemId = some item) :
    (updateChecklistItem s itemId completed notes now).1.findItem itemId =
      some (toggledItem item completed notes now) := by
  rw [updateChecklistItem_found s itemId completed notes now item h]
  unfold Store.findItem
  refine find?_map_replace s.checklistItems itemId _ ?_ item h
  have hp := List.find?_some h
  simpa [toggledItem] using hp

/-- C5: updateChecklistItem throws NotFound when the item is absent and
leaves the store unchanged; when the item exists it sets completed, stamps
completedAt with the clock on completion and clears it on un-completion,
and replaces notes exactly when notes are provided. Consequently toggling
true, then false, then true leaves the item completed with the last
clock value as its non-null completedAt, and any toggle to false leaves
completedAt null. -/
theorem updateChecklistItem_semantics :
    ∀ (s : Store) (itemId : String) (completed : Bool) (notes : Option String)
      (now : Time),
      (s.findItem itemId = none →
        updateChecklistItem s itemId completed notes now =
          (s, .error (.notFound "Checklist item not found"))) ∧
      (∀ item, s.findItem itemId = some item →
        ∃ item2,
          (updateChecklistItem s itemId completed notes now).2 = .ok item2 ∧
          (updateChecklistItem s itemId completed notes now).1.findItem itemId =
            some item2 ∧
          item2.completed = completed ∧
          item2.completedAt = (if completed then some now else none) ∧
          item2.notes = (match notes with | some n => some n | none => item.notes) ∧
          item2.id = item.id ∧ item2.packageId = item.packageId ∧
          item2.label = item.label ∧ item2.required = item.required) ∧
      (∀ item, s.findItem itemId = some item → ∀ t1 t2 t3 : Time,
        (((updateChecklistItem (updateChecklistItem s itemId true none t1).1
            itemId false none t2).1.findItem itemId).map
            (fun i => (i.completed, i.completedAt)) = some (false, none)) ∧
        (((updateChecklistItem (updateChecklistItem
            (updateChecklistItem s itemId true none t1).1 itemId false none
            t2).1 itemId true none t3).1.findItem itemId).map
            (fun i => (i.completed, i.completedAt)) = some (true, some t3))) := by
  intro s itemId completed notes now
  refine ⟨?_, ?_, ?_⟩
  · intro h
    unfold updateChecklistItem
    rw [h]
  · intro item h
    refine ⟨toggledItem item completed notes now, ?_, ?_, rfl, rfl, rfl, rfl,
      rfl, rfl, rfl⟩
    · rw [updateChecklistItem_found s itemId completed notes now item h]
    · exact findItem_after_update s itemId completed notes now item h
  · intro item h t1 t2 t3
    have h1 := findItem_after_update s itemId true none t1 item h
    have h2 := findItem_after_update _ itemId false none t2 _ h1
    have h3 := findItem_after_update _ itemId true none t3 _ h2
    constructor
    · rw [h2]; rfl
    · rw [h3]; rfl

/-- A one-item store used as the concrete input for the C5 witness. -/
def c5Store : Store :=
  { packages := [⟨"p1", "PKG-2026-0001", .DRAFT, "u1", none, "c1", .RESIDENTIAL⟩],
    checklistItems := [⟨"i1", "p1", "Site plan", "Site", true, 1, false, none, none⟩],
    statusLogs := [],
    templates := [] }

/-- Closed witness for C5 at a concrete store and item. -/
theorem updateChecklistItem_semantics_witness :
    (∃ item2,
      (updateChecklistItem c5Store "i1" true (some "ok") 4).2 = .ok item2 ∧
      (updateChecklistItem c5Store "i1" true (some "ok") 4).1.findItem "i1" =
        some item2 ∧
      item2.completed = true ∧
      item2.completedAt = (if true then some 4 else none) ∧
      item2.notes = some "ok" ∧
      item2.id = "i1" ∧ item2.packageId = "p1" ∧
      item2.label = "Site plan" ∧ item2.required = true) ∧
    (((updateChecklistItem (updateChecklistItem
        (updateChecklistItem c5Store "i1" true none 1).1 "i1" false none
        2).1 "i1" true none 3).1.findItem "i1").map
        (fun i => (i.completed, i.completedAt)) = some (true, some 3)) :=
  ⟨(updateChecklistItem_semantics c5Store "i1" true (some "ok") 4).2.1
      ⟨"i1", "p1", "Site plan", "Site", true, 1, false, none, none⟩ (by decide),
   ((updateChecklistItem_semantics c5Store "i1" true none 0).2.2
      ⟨"i1", "p1", "Site plan", "Site", true, 1, false, none, none⟩ (by decide)
      1 2 3).2⟩

/-! ### C6: explicit checklist creation from supplied template rows -/

/-- C6: createChecklistItems throws NotFound when the package is absent
and leaves the store unchanged; otherwise it appends exactly one
PackageChecklistItem per supplied template row — copying label, category,
required and sort, with completed false and completedAt null — and
nothing else, with no filtering of the supplied rows by permit type. -/
theorem createChecklistItems_semantics :
    ∀ (s : Store) (pid : String) (ts : List TemplateItem) (newId : Nat → String),
      (s.findPackage pid = none →
        createChecklistItems s pid ts newId =
          (s, .error (.notFound "Permit package not found"))) ∧
      (∀ pkg, s.findPackage pid = some pkg →
        ∃ created,
          (createChecklistItems s pid ts newId).2 = .ok created ∧
          (createChecklistItems s pid ts newId).1.checklistItems =
            s.checklistItems ++ created ∧
          created.length = ts.length ∧
          ∀ i (hi : i < ts.length) (hc : i < created.length),
            created[i].label = ts[i].label ∧
            created[i].category = ts[i].category ∧
            created[i].required = ts[i].required ∧
            created[i].sort = ts[i].sort ∧
            created[i].packageId = pid ∧
            created[i].completed = false ∧
            created[i].completedAt = none) := by
  intro s pid ts newId
  constructor
  · intro h
    unfold createChecklistItems
    rw [h]
  · intro pkg h
    have heval : createChecklistItems s pid ts newId =
        ({ s with checklistItems := s.checklistItems ++
            ts.enum.map (fun e => cloneTemplate pid (newId e.1) e.2) },
         .ok (ts.enum.map (fun e => cloneTemplate pid (newId e.1) e.2))) := by
      unfold createChecklistItems
      rw [h]
    refine ⟨ts.enum.map (fun e => cloneTemplate pid (newId e.1) e.2), ?_, ?_,
      ?_, ?_⟩
    · rw [heval]
    · rw [heval]
    · simp [List.enum_length]
    · intro i hi hc
      have hgi : (ts.enum.map (fun e => cloneTemplate pid (newId e.1) e.2))[i] =
          cloneTemplate pid (newId i) ts[i] := by
        rw [List.getElem_map]
        simp [List.getElem_enum]
      rw [hgi]
      exact ⟨rfl, rfl, rfl, rfl, rfl, rfl, rfl⟩

/-- Closed witness for C6: two supplied rows of different permit types are
both cloned onto an existing package. -/
theorem createChecklistItems_semantics_witness :
    ∃ created,
      (createChecklistItems c5Store "p1"
        [⟨"c1", "Tie-down details", "Anchorage", true, 2, some .MOBILE_HOME⟩,
         ⟨"c1", "Energy form", "Energy", false, 3, none⟩]
        (fun n => decStr n)).2 = .ok created ∧
      (createChecklistItems c5Store "p1"
        [⟨"c1", "Tie-down details", "Anchorage", true, 2, some .MOBILE_HOME⟩,
         ⟨"c1", "Energy form", "Energy", false, 3, none⟩]
        (fun n => decStr n)).1.checklistItems =
        c5Store.checklistItems ++ created ∧
      created.length = 2 ∧
      ∀ i (hi : i < 2) (hc : i < created.length),
        created[i].label =
          [(⟨"c1", "Tie-down details", "Anchorage", true, 2, some .MOBILE_HOME⟩ :
            TemplateItem), ⟨"c1", "Energy form", "Energy", false, 3, none⟩][i].label ∧
        created[i].category =
          [(⟨"c1", "Tie-down details", "Anchorage", true, 2, some .MOBILE_HOME⟩ :
            TemplateItem), ⟨"c1", "Energy form", "Energy", false, 3, none⟩][i].category ∧
        created[i].required =
          [(⟨"c1", "Tie-down details", "Anchorage", true, 2, some .MOBILE_HOME⟩ :
            TemplateItem), ⟨"c1", "Energy form", "Energy", false, 3, none⟩][i].required ∧
        created[i].sort =
          [(⟨"c1", "Tie-down details", "Anchorage", true, 2, some .MOBILE_HOME⟩ :
            TemplateItem), ⟨"c1", "Energy form", "Energy", false, 3, none⟩][i].sort ∧
        created[i].packageId = "p1" ∧
        created[i].completed = false ∧
        created[i].completedAt = none :=
  (createChecklistItems_semantics c5Store "p1"
    [⟨"c1", "Tie-down details", "Anchorage", true, 2, some .MOBILE_HOME⟩,
     ⟨"c1", "Energy form", "Energy", false, 3, none⟩]
    (fun n => decStr n)).2
    ⟨"p1", "PKG-2026-0001", .DRAFT, "u1", none, "c1", .RESIDENTIAL⟩ (by decide)

/-! ### C7: join-package authorization -/

/-- C7: a connection whose user is neither the creator nor the designated
updater of the package receives only an error event on join-package: the
membership state is unchanged (so in particular no presence event reaches
anyone), and no later broadcast to the package room is delivered to that
connection. -/
theorem joinPackage_unauthorized (db : Store) (hub : HubState)
    (sock userId pid : String)
    (hauth : authOk db pid userId = false)
    (hmem : hub.member (pkgRoom pid) sock = false) :
    handleJoinPackage db hub sock userId pid = (hub, [.direct sock "error"]) ∧
    ∀ ex ev, delivers (handleJoinPackage db hub sock userId pid).1
      (.room (pkgRoom pid) ex ev) sock = false := by
  have hj : handleJoinPackage db hub sock userId pid =
      (hub, [.direct sock "error"]) := by
    unfold handleJoinPackage
    rw [hauth]
    simp
  refine ⟨hj, ?_⟩
  intro ex ev
  rw [hj]
  show (hub.member (pkgRoom pid) sock && !(ex == some sock)) = false
  rw [hmem]
  simp

/-- Closed witness for C7: user u9 is neither creator nor updater of p1
and the socket is in no room. -/
theorem joinPackage_unauthorized_witness :
    handleJoinPackage c5Store ⟨[("package-p2", "s2")]⟩ "s9" "u9" "p1" =
      (⟨[("package-p2", "s2")]⟩, [.direct "s9" "error"]) ∧
    ∀ ex ev, delivers
      (handleJoinPackage c5Store ⟨[("package-p2", "s2")]⟩ "s9" "u9" "p1").1
      (.room (pkgRoom "p1") ex ev) "s9" = false :=
  joinPackage_unauthorized c5Store ⟨[("package-p2", "s2")]⟩ "s9" "u9" "p1"
    (by decide) (by decide)

/-! ### C8: broadcast only after successful persistence -/

/-- C8: for both real-time handlers, the room broadcast appears exactly
when every store write succeeded, and on any write failure the handler
emits a single error event to the originating socket and nothing to the
room. -/
theorem broadcast_after_persist :
    ∀ (db : Store) (sock userId pid itemId : String) (completed : Bool)
      (st : PackageStatus) (note : Option String) (now : Time)
      (writeOk : Bool) (fate : WriteFate),
      (((db.findItem itemId).isSome ∧ writeOk = true) →
        (handleToggleChecklistItem db sock pid itemId completed now writeOk).2 =
          [.room (pkgRoom pid) none "checklist-updated"]) ∧
      (¬((db.findItem itemId).isSome ∧ writeOk = true) →
        handleToggleChecklistItem db sock pid itemId completed now writeOk =
          (db, [.direct sock "error"])) ∧
      (((db.findPackage pid).isSome ∧ fate.updateOk = true ∧ fate.logOk = true) →
        (handleUpdateStatus db sock userId pid st note now fate).2 =
          [.room (pkgRoom pid) none "status-updated"]) ∧
      (¬((db.findPackage pid).isSome ∧ fate.updateOk = true ∧ fate.logOk = true) →
        ∃ db2, handleUpdateStatus db sock userId pid st note now fate =
          (db2, [.direct sock "error"])) := by
  intro db sock userId pid itemId completed st note now writeOk fate
  refine ⟨?_, ?_, ?_, ?_⟩
  · rintro ⟨hitem, hw⟩
    subst hw
    unfold handleToggleChecklistItem
    obtain ⟨item, hit⟩ := Option.isSome_iff_exists.mp hitem
    rw [hit]
  · intro hfail
    unfold handleToggleChecklistItem
    cases hit : db.findItem itemId with
    | none => cases writeOk <;> rfl
    | some item =>
      cases hw : writeOk with
      | false => rfl
      | true => exact absurd ⟨by rw [hit]; rfl, hw⟩ hfail
  · rintro ⟨hpkg, hu, hl⟩
    unfold handleUpdateStatus
    rw [Option.isSome_iff_exists] at hpkg
    obtain ⟨pkg, hp⟩ := hpkg
    rw [hp, hu, hl]
    rfl
  · intro hfail
    unfold handleUpdateStatus
    cases hp : (db.findPackage pid).isSome with
    | false =>
      cases hu : fate.updateOk <;> simp [hp, hu]
    | true =>
      cases hu : fate.updateOk with
      | false => simp [hp, hu]
      | true =>
        cases hl : fate.logOk with
        | false => simp [hp, hu, hl]
        | true => exact absurd ⟨hp, hu, hl⟩ hfail

/-- Closed witness for C8: a successful toggle broadcasts to the room; an
update-status call whose audit insert rejects emits only a scoped error. -/
theorem broadcast_after_persist_witness :
    (handleToggleChecklistItem c5Store "s1" "p1" "i1" true 6 true).2 =
      [.room (pkgRoom "p1") none "checklist-updated"] ∧
    ∃ db2, handleUpdateStatus c5Store "s1" "u1" "p1" .SUBMITTED none 6
      ⟨true, false⟩ = (db2, [.direct "s1" "error"]) :=
  ⟨(broadcast_after_persist c5Store "s1" "u1" "p1" "i1" true .SUBMITTED none 6
      true ⟨true, false⟩).1 ⟨by decide, rfl⟩,
   (broadcast_after_persist c5Store "s1" "u1" "p1" "i1" true .SUBMITTED none 6
      true ⟨true, false⟩).2.2.2 (by intro hc; exact absurd hc.2.2 (by decide))⟩

/-! ### C9: progress arithmetic -/

/-- Math.round of a quotient of naturals times 100 agrees with the spec
ordering round(100*c/t): the two rational expressions are equal. -/
theorem jsRoundPct_eq_spec (c t : Nat) :
    jsRoundPct c t = (round ((100 * (c : ℚ)) / (t : ℚ))).toNat := by
  unfold jsRoundPct
  rw [div_mul_eq_mul_div, mul_comm]

theorem jsRoundPct_4_10 : jsRoundPct 4 10 = 40 := by
  unfold jsRoundPct
  norm_num [round_eq, Int.floor_eq_iff]
  rfl

theorem jsRoundPct_3_6 : jsRoundPct 3 6 = 50 := by
  unfold jsRoundPct
  norm_num [round_eq, Int.floor_eq_iff]
  rfl

/-- A ten-item checklist with 4 completed, 6 required and 3 required and
completed: the P4 instance from the spec. -/
def demoChecklist : List PackageChecklistItem :=
  [⟨"a1", "p1", "l1", "c", true, 1, true, some 1, none⟩,
   ⟨"a2", "p1", "l2", "c", true, 2, true, some 1, none⟩,
   ⟨"a3", "p1", "l3", "c", true, 3, true, some 1, none⟩,
   ⟨"a4", "p1", "l4", "c", false, 4, true, some 1, none⟩,
   ⟨"a5", "p1", "l5", "c", true, 5, false, none, none⟩,
   ⟨"a6", "p1", "l6", "c", true, 6, false, none, none⟩,
   ⟨"a7", "p1", "l7", "c", true, 7, false, none, none⟩,
   ⟨"a8", "p1", "l8", "c", false, 8, false, none, none⟩,
   ⟨"a9", "p1", "l9", "c", false, 9, false, none, none⟩,
   ⟨"b1", "p1", "m1", "c", false, 10, false, none, none⟩]

/-- C9: getProgressStats returns the four counts, the two rounded
percentages computed exactly as the spec formula round(100*count/total)
with a zero guard, and on the spec P4 instance (10 items, 4 completed,
6 required, 3 required-and-completed) yields percentage 40 and
requiredPercentage 50. -/
theorem progress_stats_correct :
    ∀ items : List PackageChecklistItem,
      (getProgressStats items).total = items.length ∧
      (getProgressStats items).completed =
        (items.filter (fun i => i.completed)).length ∧
      (getProgressStats items).required =
        (items.filter (fun i => i.required)).length ∧
      (getProgressStats items).requiredCompleted =
        (items.filter (fun i => i.required && i.completed)).length ∧
      (getProgressStats items).percentage =
        specRoundPct (items.filter (fun i => i.completed)).length items.length ∧
      (getProgressStats items).requiredPercentage =
        specRoundPct (items.filter (fun i => i.required && i.completed)).length
          (items.filter (fun i => i.required)).length ∧
      getProgressStats demoChecklist = ⟨10, 4, 6, 3, 40, 50⟩ := by
  intro items
  refine ⟨rfl, rfl, rfl, rfl, ?_, ?_, ?_⟩
  · show (if items.length > 0 then
        jsRoundPct (items.filter (fun i => i.completed)).length items.length
      else 0) = _
    unfold specRoundPct
    by_cases h : items.length > 0
    · rw [if_pos h, if_pos h, jsRoundPct_eq_spec]
    · rw [if_neg h, if_neg h]
  · show (if (items.filter (fun i => i.required)).length > 0 then
        jsRoundPct (items.filter (fun i => i.required && i.completed)).length
          (items.filter (fun i => i.required)).length
      else 0) = _
    unfold specRoundPct
    by_cases h : (items.filter (fun i => i.required)).length > 0
    · rw [if_pos h, if_pos h, jsRoundPct_eq_spec]
    · rw [if_neg h, if_neg h]
  · have hd : getProgressStats demoChecklist =
        ⟨10, 4, 6, 3, jsRoundPct 4 10, jsRoundPct 3 6⟩ := rfl
    rw [hd, jsRoundPct_4_10, jsRoundPct_3_6]

/-! ### C10: package number assignment -/

/-- The value of a little-endian digit list. -/
def hornerVal (l : List Nat) : Nat := l.foldr (fun d a => d + 10 * a) 0

theorem decDigitsAux_val : ∀ fuel n : Nat, n ≤ fuel →
    hornerVal (decDigitsAux fuel n) = n := by
  intro fuel
  induction fuel with
  | zero =>
    intro n h
    have hn : n = 0 := Nat.le_zero.mp h
    subst hn
    rfl
  | succ f ih =>
    intro n h
    cases n with
    | zero => rfl
    | succ m =>
      have hrec : (m + 1) / 10 ≤ f := by
        have h1 : (m + 1) / 10 < m + 1 := Nat.div_lt_self (Nat.succ_pos m) (by omega)
        omega
      show hornerVal ((m + 1) % 10 :: decDigitsAux f ((m + 1) / 10)) = m + 1
      have htail := ih _ hrec
      unfold hornerVal at htail ⊢
      simp only [List.foldr]
      rw [htail]
      exact Nat.mod_add_div (m + 1) 10

theorem decDigitsAux_lt : ∀ fuel n : Nat, ∀ d ∈ decDigitsAux fuel n, d < 10 := by
  intro fuel
  induction fuel with
  | zero =>
    intro n d hd
    cases n <;> simp [decDigitsAux] at hd
  | succ f ih =>
    intro n d hd
    cases n with
    | zero => simp [decDigitsAux] at hd
    | succ m =>
      simp only [decDigitsAux, List.mem_cons] at hd
      rcases hd with h | h
      · subst h; exact Nat.mod_lt _ (by omega)
      · exact ih _ d h

theorem charVal_digitChar (d : Nat) (h : d < 10) :
    charVal (Nat.digitChar d) = d := by
  interval_cases d <;> rfl

theorem foldl_parse_digits (l : List Nat) (hl : ∀ d ∈ l, d < 10) :
    ∀ a : Nat, ((l.map Nat.digitChar).reverse).foldl
      (fun a c => 10 * a + charVal c) a = a * 10 ^ l.length + hornerVal l := by
  induction l with
  | nil => intro a; simp [hornerVal]
  | cons d tl ih =>
    intro a
    have hd : d < 10 := hl d (by simp)
    have htl : ∀ x ∈ tl, x < 10 := fun x hx => hl x (by simp [hx])
    simp only [List.map, List.reverse_cons, List.foldl_append]
    rw [ih htl a]
    simp only [List.foldl]
    rw [charVal_digitChar d hd]
    unfold hornerVal
    simp only [List.foldr, List.length_cons]
    ring

theorem parseDec_congr (s t : String) (h : s.data = t.data) :
    parseDec s = parseDec t := by
  unfold parseDec
  rw [h]

theorem parseDec_decStr (n : Nat) : parseDec (decStr n) = n := by
  unfold decStr
  by_cases h : n = 0
  · subst h; rfl
  · rw [if_neg h]
    show (((decDigitsAux n n).map Nat.digitChar).reverse).foldl
      (fun a c => 10 * a + charVal c) 0 = n
    rw [foldl_parse_digits _ (decDigitsAux_lt n n) 0]
    rw [decDigitsAux_val n n (Nat.le_refl n)]
    simp

theorem foldl_parse_zeros : ∀ (k : Nat) (l : List Char),
    (List.replicate k '0' ++ l).foldl (fun a c => 10 * a + charVal c) 0 =
      l.foldl (fun a c => 10 * a + charVal c) 0 := by
  intro k
  induction k with
  | zero => intro l; rfl
  | succ m ih =>
    intro l
    show (List.replicate m '0' ++ l).foldl
      (fun a c => 10 * a + charVal c) (10 * 0 + charVal '0') = _
    have h0 : 10 * 0 + charVal '0' = 0 := rfl
    rw [h0]
    exact ih l

theorem parseDec_padStart (s : String) (len : Nat) :
    parseDec (padStart s len '0') = parseDec s := by
  unfold parseDec padStart
  exact foldl_parse_zeros _ _

theorem parseDec_pad_decStr (n len : Nat) :
    parseDec (padStart (decStr n) len '0') = n := by
  rw [parseDec_padStart, parseDec_decStr]

/-- Distinct counter values give distinct package numbers: the padded
decimal part reads back as the counter. -/
theorem pkgNumber_inj (year a b : Nat)
    (h : pkgTag year ++ padStart (decStr a) 4 '0' =
      pkgTag year ++ padStart (decStr b) 4 '0') : a = b := by
  have hdata : (pkgTag year).data ++ (padStart (decStr a) 4 '0').data =
      (pkgTag year).data ++ (padStart (decStr b) 4 '0').data := by
    have h2 := congrArg String.data h
    simpa [String.data_append] using h2
  have h3 : (padStart (decStr a) 4 '0').data =
      (padStart (decStr b) 4 '0').data := List.append_cancel_left hdata
  have h4 : parseDec (padStart (decStr a) 4 '0') =
      parseDec (padStart (decStr b) 4 '0') := parseDec_congr _ _ h3
  rw [parseDec_pad_decStr, parseDec_pad_decStr] at h4
  exact h4

theorem startsWithB_append (p rest : String) :
    startsWithB (p ++ rest) p = true := by
  unfold startsWithB
  rw [String.data_append, List.take_left]
  simp

/-- Each creation raises by one the count of stored packages whose number
matches the pattern for the year. -/
theorem matchCount_create (s : Store) (pid countyId : String) (pt : PermitType)
    (uid : String) (now : Time) (year : Nat) :
    (create s pid countyId pt uid now year).1.matchCount year =
      s.matchCount year + 1 := by
  unfold create Store.matchCount
  simp only [List.filter_append, List.length_append]
  have hs : startsWithB (generatePackageNumber s year) (pkgTag year) = true :=
    startsWithB_append _ _
  simp [List.filter, hs]

/-- The sequence of numbers assigned by consecutive creations, in closed
form. -/
theorem createRun_nums : ∀ (reqs : List CreateReq) (s : Store) (year : Nat),
    (createRun s year reqs).2 = (List.range reqs.length).map
      (fun i => pkgTag year ++
        padStart (decStr (s.matchCount year + i + 1)) 4 '0') := by
  intro reqs
  induction reqs with
  | nil => intro s year; rfl
  | cons r rs ih =>
    intro s year
    show (create s r.pid r.countyId r.permitType r.userId r.now year).2.packageNumber ::
      (createRun (create s r.pid r.countyId r.permitType r.userId r.now year).1
        year rs).2 = _
    rw [ih, matchCount_create]
    rw [List.length_cons, List.range_succ_eq_map]
    simp only [List.map_cons, List.map_map]
    have htail : List.map (fun i => pkgTag year ++
        padStart (decStr (s.matchCount year + 1 + i + 1)) 4 '0')
        (List.range rs.length) =
        List.map ((fun i => pkgTag year ++
          padStart (decStr (s.matchCount year + i + 1)) 4 '0') ∘ Nat.succ)
        (List.range rs.length) :=
      List.map_congr_left (fun i _ => by
        show pkgTag year ++
            padStart (decStr (s.matchCount year + 1 + i + 1)) 4 '0' =
          pkgTag year ++
            padStart (decStr (s.matchCount year + Nat.succ i + 1)) 4 '0'
        have harith : s.matchCount year + 1 + i + 1 =
            s.matchCount year + Nat.succ i + 1 := by omega
        rw [harith])
    rw [htail]
    rfl

/-- C10: packages created non-concurrently within one year receive the
numbers PKG-year-NNNN with NNNN reading back as one plus the count of
already-stored matching packages at each step; the numeric parts are
consecutive and the assigned number strings pairwise distinct. -/
theorem package_numbers_distinct_consecutive (s0 : Store) (year : Nat)
    (reqs : List CreateReq) :
    (createRun s0 year reqs).2.length = reqs.length ∧
    (∀ i (hi : i < (createRun s0 year reqs).2.length),
      (createRun s0 year reqs).2[i] =
        pkgTag year ++ padStart (decStr (s0.matchCount year + i + 1)) 4 '0' ∧
      parseDec (padStart (decStr (s0.matchCount year + i + 1)) 4 '0') =
        s0.matchCount year + i + 1) ∧
    (∀ i j (hi : i < (createRun s0 year reqs).2.length)
      (hj : j < (createRun s0 year reqs).2.length), i ≠ j →
      (createRun s0 year reqs).2[i] ≠ (createRun s0 year reqs).2[j]) := by
  have hn := createRun_nums reqs s0 year
  have hlen : (createRun s0 year reqs).2.length = reqs.length := by
    rw [hn]; simp
  have hval : ∀ i (hi : i < (createRun s0 year reqs).2.length),
      (createRun s0 year reqs).2[i] =
        pkgTag year ++ padStart (decStr (s0.matchCount year + i + 1)) 4 '0' := by
    intro i hi
    rw [List.getElem_of_eq hn hi, List.getElem_map, List.getElem_range]
  refine ⟨hlen, ?_, ?_⟩
  · intro i hi
    exact ⟨hval i hi, parseDec_pad_decStr _ _⟩
  · intro i j hi hj hne
    rw [hval i hi, hval j hj]
    intro hcontra
    have := pkgNumber_inj year _ _ hcontra
    omega

/-- Closed witness for C10: the store already holds PKG-2026-0001, so the
two creations receive the consecutive distinct numbers 0002 and 0003. -/
theorem package_numbers_distinct_consecutive_witness :
    (createRun c5Store 2026
      [⟨"p2", "c1", .RESIDENTIAL, "u1", 1⟩,
       ⟨"p3", "c1", .MOBILE_HOME, "u2", 2⟩]).2.get ⟨0, by decide⟩ ≠
    (createRun c5Store 2026
      [⟨"p2", "c1", .RESIDENTIAL, "u1", 1⟩,
       ⟨"p3", "c1", .MOBILE_HOME, "u2", 2⟩]).2.get ⟨1, by decide⟩ :=
  (package_numbers_distinct_consecutive c5Store 2026
    [⟨"p2", "c1", .RESIDENTIAL, "u1", 1⟩,
     ⟨"p3", "c1", .MOBILE_HOME, "u2", 2⟩]).2.2 0 1 (by decide) (by decide)
    (by decide)

end PMS
